import Mathlib

/-!
# Data-Visualizer: shallow embedding and verification

A shallow embedding of `src/app.py` of the Data-Visualizer repository:
the S3 catalog lister, the downloader, the `visualize_data` chart
renderer, and the interactive selection loops of the `__main__` driver.
External collaborators (the S3 client, pandas, matplotlib, the console)
are modelled through their interfaces: the network and the rasterizer
are parameters, the on-disk filesystem is an explicit association list,
and console input is an explicit list of tokens.
-/

set_option autoImplicit false
set_option linter.unusedVariables false

namespace DV

/-- A byte, as stored in a file on disk. -/
abbrev Byte := Fin 256

/-- Truncate a natural number to a byte. -/
def mkByte (n : ℕ) : Byte := ⟨n % 256, Nat.mod_lt _ (by decide)⟩

/-- The 64 characters of the standard base64 alphabet, in value order
(`base64.b64encode` in Python uses this table). -/
def b64Chars : List Char :=
  "ABCDEFGHIJKLMNOPQRSTUVWXYZabcdefghijklmnopqrstuvwxyz0123456789+/".toList

/-- The base64 character of a 6-bit value. -/
def sixChar (n : ℕ) : Char := b64Chars.getD n 'A'

/-- The 6-bit value of a base64 character, `none` for a character
outside the alphabet. -/
def sixVal? (c : Char) : Option ℕ := b64Chars.findIdx? (fun d => d = c)

/-- Standard base64 of a byte sequence: 3 bytes become 4 characters,
a 1- or 2-byte tail is padded with `=`. Models Python `base64.b64encode`. -/
def b64EncodeBytes : List Byte → List Char
  | [] => []
  | [a] => [sixChar (a.val / 4), sixChar (a.val % 4 * 16), '=', '=']
  | [a, b] => [sixChar (a.val / 4), sixChar (a.val % 4 * 16 + b.val / 16),
      sixChar (b.val % 16 * 4), '=']
  | a :: b :: c :: rest =>
      sixChar (a.val / 4) :: sixChar (a.val % 4 * 16 + b.val / 16) ::
      sixChar (b.val % 16 * 4 + c.val / 64) :: sixChar (c.val % 64) ::
      b64EncodeBytes rest

/-- Standard base64 decoding, `none` on malformed input.
Models Python `base64.b64decode`. -/
def b64DecodeChars : List Char → Option (List Byte)
  | [] => some []
  | c1 :: c2 :: c3 :: c4 :: rest => do
      let a ← sixVal? c1
      let b ← sixVal? c2
      if c3 = '=' then
        if c4 = '=' ∧ rest = [] then some [mkByte (a * 4 + b / 16)] else none
      else do
        let c ← sixVal? c3
        if c4 = '=' then
          if rest = [] then
            some [mkByte (a * 4 + b / 16), mkByte (b % 16 * 16 + c / 4)]
          else none
        else do
          let d ← sixVal? c4
          let tail ← b64DecodeChars rest
          some (mkByte (a * 4 + b / 16) :: mkByte (b % 16 * 16 + c / 4) ::
            mkByte (c % 4 * 64 + d) :: tail)
  | _ => none

/-- Base64 of bytes as a string (`base64.b64encode(...).decode('utf-8')`). -/
def b64encode (l : List Byte) : String := String.mk (b64EncodeBytes l)

/-- Base64 decoding of a string. -/
def b64decodeStr (s : String) : Option (List Byte) := b64DecodeChars s.data

/-- The local filesystem: an association list from path to file bytes. -/
abbrev FS := List (String × List Byte)

/-- Reading a file: the bytes at the first entry for the path. -/
def FS.read : FS → String → Option (List Byte)
  | [], _ => none
  | (p, b) :: rest, q => if p = q then some b else FS.read rest q

/-- Writing a file: overwrite the entry for the path when present,
create the file otherwise. -/
def FS.write : FS → String → List Byte → FS
  | [], p, b => [(p, b)]
  | (q, c) :: rest, p, b =>
      if q = p then (p, b) :: rest else (q, c) :: FS.write rest p b

/-- Python `os.path.join` for two components: a separator is inserted
unless the directory already ends with one (or is empty). -/
def pathJoin (d f : String) : String :=
  if d = "" then f
  else if d.data.getLast? = some '/' then d ++ f
  else d ++ "/" ++ f

/-- Python `os.path.basename`: the part after the last slash. -/
def basename (s : String) : String :=
  (s.splitOn "/").getLastD ""

/-- An output channel of the process. Python `print(...)` writes to
`stdout`; `stderr` is the process's error stream. -/
inductive Chan where
  | stdout
  | stderr
deriving DecidableEq, Repr

/-- Outcome of a `download_file_from_s3` call: the console lines written
(with their channel) and either the returned local path (`ok`) or the
exit code the process terminated with (`error`). -/
structure DownloadOutcome where
  outputs : List (Chan × String)
  result : Except ℕ String

/-- Model of `download_file_from_s3` in `src/app.py`. The S3 client call is the
parameter `dl`: `.ok ()` when `s3.download_file` succeeds, `.error e`
when it raises an exception rendered as text `e`. On success the local
path is returned; on any exception the error line is written with
`print` — hence to standard output — and the process exits with code 1
(`sys.exit(1)`). -/
def download_file_from_s3 (dl : Except String Unit)
    (bucket_name file_key local_dir : String) : DownloadOutcome :=
  let local_path := pathJoin local_dir (basename file_key)
  match dl with
  | .ok _ =>
      { outputs := [(Chan.stdout, "File downloaded successfully to: " ++ local_path)]
        result := .ok local_path }
  | .error e =>
      { outputs := [(Chan.stdout, "Error downloading file from S3: " ++ e)]
        result := .error 1 }

/-- An object entry in an S3 `list_objects_v2` response. -/
structure S3Object where
  key : String
deriving DecidableEq, Repr

/-- An S3 `list_objects_v2` response: `contents = none` models a
response carrying no `Contents` field (the empty-bucket case). -/
structure S3Response where
  contents : Option (List S3Object)
deriving DecidableEq, Repr

/-- Model of `list_files_in_s3_bucket` in `src/app.py`: `response['Contents']`
raises `KeyError` when the field is missing; otherwise the object keys
are collected in listing order. -/
def list_files_in_s3_bucket (response : S3Response) : Except String (List String) :=
  match response.contents with
  | none => .error "KeyError: Contents"
  | some objs => .ok (objs.map (fun o => o.key))

/-- A cell value of a parsed table: pandas holds a number or a string. -/
inductive Val where
  | num (q : ℚ)
  | str (s : String)
deriving DecidableEq, Repr

/-- The numeric value of a cell, `none` for non-numeric data. -/
def Val.toNum? : Val → Option ℚ
  | Val.num q => some q
  | Val.str _ => none

/-- A pandas DataFrame: ordered named columns and rows of cells. -/
structure DataFrame where
  columns : List String
  rows : List (List Val)
deriving DecidableEq, Repr

/-- Column access `df[c]`: the column named `c` as the list of its cell values down
the rows, or a `KeyError` when no column has that name. -/
def DataFrame.col (df : DataFrame) (c : String) : Except String (List Val) :=
  match df.columns.findIdx? (fun d => d = c) with
  | none => .error ("KeyError: " ++ c)
  | some i => .ok (df.rows.map (fun r => r.getD i (Val.str "")))

/-- Coerce a whole column to numbers, failing on non-numeric cells;
models the rendering engine rejecting non-numeric data (`plt.hist`
sample values, `plt.pie` wedge sizes). -/
def toNums : List Val → Except String (List ℚ)
  | [] => .ok []
  | v :: vs =>
      match v.toNum? with
      | none => .error "TypeError: non-numeric data"
      | some q =>
          match toNums vs with
          | .error e => .error e
          | .ok rest => .ok (q :: rest)

/-- The matplotlib draw command recorded on the current figure by the
type-specific branch of `visualize_data`. -/
inductive DrawCmd where
  | scatter (x y : List Val) (label : String)
  | line (x y : List Val) (marker linestyle label : String)
  | hist (data : List ℚ) (bins : ℕ) (label : String) (rwidth : ℚ)
  | bar (x y : List Val) (label : String)
  | pie (sizes : List ℚ) (labels : List Val) (autopct : String)
deriving DecidableEq, Repr

/-- The state of the matplotlib figure built by `visualize_data`. -/
structure Figure where
  figsize : ℚ × ℚ
  draw : Option DrawCmd
  xlabel : Option String
  ylabel : Option String
  title : Option String
  xtickRotation : Option ℚ
  xtickHa : Option String
  tightLayout : Bool
  legend : Bool
deriving DecidableEq, Repr

/-- A fresh figure, nothing drawn: `plt.figure(figsize=(10, 6))`. -/
def newFigure : Figure :=
  { figsize := (10, 6), draw := none, xlabel := none, ylabel := none,
    title := none, xtickRotation := none, xtickHa := none,
    tightLayout := false, legend := false }

/-- The type-specific draw dispatch of `visualize_data`: five
`if`/`elif` branches on the tag and no default branch — an unrecognized
tag draws nothing and leaves `fig0` untouched. Errors are the
exceptions pandas or matplotlib raise: `KeyError` on a missing column,
`TypeError` when `hist`/`pie` receive non-numeric data. -/
def dispatchDraw (fig0 : Figure) (df : DataFrame)
    (x_column y_column plot_type : String) : Except String Figure :=
  if plot_type = "scatter" then do
    let xs ← df.col x_column
    let ys ← df.col y_column
    pure { fig0 with draw := some (DrawCmd.scatter xs ys y_column) }
  else if plot_type = "line" then do
    let xs ← df.col x_column
    let ys ← df.col y_column
    pure { fig0 with draw := some (DrawCmd.line xs ys "o" "-" y_column) }
  else if plot_type = "hist" then do
    let ys ← df.col y_column
    let data ← toNums ys
    pure { fig0 with draw := some (DrawCmd.hist data 10 y_column (4/5)) }
  else if plot_type = "bar" then do
    let xs ← df.col x_column
    let ys ← df.col y_column
    pure { fig0 with draw := some (DrawCmd.bar xs ys y_column) }
  else if plot_type = "pie" then do
    let ys ← df.col y_column
    let sizes ← toNums ys
    let xs ← df.col x_column
    pure { fig0 with draw := some (DrawCmd.pie sizes xs "%1.1f%%") }
  else
    pure fig0

/-- The common rendering steps of `visualize_data` that follow the
dispatch: axis labels from the column names, the fixed title, tick
rotation, layout and legend. -/
def commonSteps (fig1 : Figure) (x_column y_column : String) : Figure :=
  { fig1 with
    xlabel := some x_column
    ylabel := some y_column
    title := some "Data Visualization"
    xtickRotation := some 45
    xtickHa := some "right"
    tightLayout := true
    legend := true }

/-- The figure-building phase of `visualize_data` in `src/app.py`
(everything before `plt.savefig`): a fresh figure, `df.columns[0]` as
the x column (`IndexError` on an empty column list), the dispatch, then
the common steps. -/
def buildFigure (df : DataFrame) (selected_column plot_type : String) :
    Except String Figure := do
  let fig0 := newFigure
  let x_column ← match df.columns with
    | [] => Except.error "IndexError: columns"
    | c :: _ => Except.ok c
  let y_column := selected_column
  let fig1 ← dispatchDraw fig0 df x_column y_column plot_type
  pure (commonSteps fig1 x_column y_column)

/-- The observable outcome of one `visualize_data` call: the returned
base64 string or the propagated exception, the filesystem after the
call, whether `plt.close` ran, and the final figure state (`none` when
the dispatch raised before the figure was completed). -/
structure VizOutcome where
  result : Except String String
  fs : FS
  closed : Bool
  fig : Option Figure

/-- Model of `visualize_data` in `src/app.py`. The rasterizer is the parameter
`engine`: `plt.savefig(output_file)` writes `engine fig` to
`os.path.join(output_dir, 'plot.png')`, or raises. After a successful
save the figure is closed, the file is read back and its bytes are
returned base64-encoded. No `try`/`finally` protects the `plt.close`
call: when `plt.savefig` raises, the exception propagates and the
figure is not closed. -/
def visualize_data (engine : Figure → Except String (List Byte)) (fs : FS)
    (df : DataFrame) (output_dir selected_column plot_type : String) : VizOutcome :=
  match buildFigure df selected_column plot_type with
  | .error e => { result := .error e, fs := fs, closed := false, fig := none }
  | .ok fig =>
      let output_file := pathJoin output_dir "plot.png"
      match engine fig with
      | .error e =>
          { result := .error e, fs := fs, closed := false, fig := some fig }
      | .ok bytes =>
          let fs1 := FS.write fs output_file bytes
          match FS.read fs1 output_file with
          | none =>
              { result := .error "FileNotFoundError", fs := fs1,
                closed := true, fig := some fig }
          | some data =>
              { result := .ok (b64encode data), fs := fs1,
                closed := true, fig := some fig }

/-- Python list indexing `l[i]`: a negative index counts from the end;
`none` models `IndexError`. -/
def pyGet? {α : Type} (l : List α) (i : ℤ) : Option α :=
  if 0 ≤ i then l.get? i.toNat
  else if i.natAbs ≤ l.length then l.get? (l.length - i.natAbs)
  else none

/-- One selection loop of the `__main__` driver (the same shape serves
the dataset and the column selection): each console entry is `none`
when `int(...)` raises `ValueError`, `some n` for an entered integer
`n`. The loop evaluates `items[n-1]` with Python indexing and
re-prompts — printing the fixed error line — on `ValueError` or
`IndexError`; `none` models input running out (the real loop would
block forever). -/
def selection_loop {α : Type} (items : List α) : List (Option ℤ) → Option α
  | [] => none
  | entry :: rest =>
      match entry with
      | none => selection_loop items rest
      | some n =>
          match pyGet? items (n - 1) with
          | none => selection_loop items rest
          | some x => some x

/-- The five recognized plot-type tags. -/
def validTags : List String := ["scatter", "line", "hist", "bar", "pie"]

/-- Python `str.lower()`: every character lowercased. -/
def strLower (s : String) : String := String.mk (s.data.map Char.toLower)

/-- The plot-type loop of the `__main__` driver: each entered token is
lowercased and the loop repeats until the lowercased token is one of
the five tags; `none` models input running out. -/
def plot_type_loop : List String → Option String
  | [] => none
  | s :: rest =>
      let t := strLower s
      if t ∈ validTags then some t else plot_type_loop rest


/-- A concrete two-column table (`date`, `sales`) used in witness runs. -/
def dfSales : DataFrame :=
  { columns := ["date", "sales"],
    rows := [[Val.str "mon", Val.num 3], [Val.str "tue", Val.num 5]] }

/-- A table whose `sales` column holds a non-numeric cell. -/
def dfBadSales : DataFrame :=
  { columns := ["date", "sales"],
    rows := [[Val.str "mon", Val.str "oops"]] }

/-- A rasterizer that always succeeds, producing a one-byte file. -/
def engOk : Figure → Except String (List Byte) :=
  fun _ => Except.ok [mkByte 137]

/-- A rasterizer whose save always raises (a full disk, say). -/
def engFail : Figure → Except String (List Byte) :=
  fun _ => Except.error "OSError: disk full"

/-- The figure `buildFigure` produces for a `line` run on `dfSales`. -/
def figLine : Figure :=
  ((buildFigure dfSales "sales" "line").toOption).getD newFigure

/-- The figure `buildFigure` produces for a `hist` run on `dfSales`. -/
def figHist : Figure :=
  ((buildFigure dfSales "sales" "hist").toOption).getD newFigure


theorem sixVal_sixChar : ∀ n : ℕ, n < 64 → sixVal? (sixChar n) = some n := by
  decide

theorem sixChar_ne_eq : ∀ n : ℕ, n < 64 → sixChar n ≠ '=' := by
  decide

theorem mkByte_val (a : Byte) : mkByte a.val = a := by
  apply Fin.ext
  simp [mkByte, Nat.mod_eq_of_lt a.isLt]

theorem mkByte_eq (n : ℕ) (a : Byte) (h : n = a.val) : mkByte n = a := by
  rw [h, mkByte_val]

/-- Base64 round trip: decoding an encoded byte list gives it back. -/
theorem b64_roundtrip : ∀ l : List Byte, b64DecodeChars (b64EncodeBytes l) = some l := by
  intro l
  induction l using b64EncodeBytes.induct with
  | case1 => rfl
  | case2 a =>
      have ha := a.isLt
      rw [b64EncodeBytes, b64DecodeChars]
      rw [sixVal_sixChar _ (by omega), sixVal_sixChar _ (by omega)]
      simp only [Option.bind_eq_bind, Option.some_bind]
      simp
      exact mkByte_eq _ _ (by omega)
  | case3 a b =>
      have ha := a.isLt
      have hb := b.isLt
      rw [b64EncodeBytes, b64DecodeChars]
      rw [sixVal_sixChar _ (by omega), sixVal_sixChar _ (by omega),
        sixVal_sixChar _ (by omega)]
      have hne := sixChar_ne_eq (b.val % 16 * 4) (by omega)
      simp [hne]
      exact ⟨mkByte_eq _ _ (by omega), mkByte_eq _ _ (by omega)⟩
  | case4 a b c rest ih =>
      have ha := a.isLt
      have hb := b.isLt
      have hc := c.isLt
      rw [b64EncodeBytes, b64DecodeChars]
      rw [sixVal_sixChar _ (by omega), sixVal_sixChar _ (by omega),
        sixVal_sixChar _ (by omega), sixVal_sixChar _ (by omega)]
      have hne1 := sixChar_ne_eq (b.val % 16 * 4 + c.val / 64) (by omega)
      have hne2 := sixChar_ne_eq (c.val % 64) (by omega)
      simp [hne1, hne2, ih]
      exact ⟨mkByte_eq _ _ (by omega), mkByte_eq _ _ (by omega), mkByte_eq _ _ (by omega)⟩

theorem b64encode_ne_empty (l : List Byte) (h : l ≠ []) : b64encode l ≠ "" := by
  intro hcontra
  have hdata : b64EncodeBytes l = [] := congrArg String.data hcontra
  match l, h with
  | [a], _ => simp [b64EncodeBytes] at hdata
  | [a, b], _ => simp [b64EncodeBytes] at hdata
  | a :: b :: c :: rest, _ => simp [b64EncodeBytes] at hdata

theorem b64decodeStr_b64encode (l : List Byte) : b64decodeStr (b64encode l) = some l := by
  rw [b64decodeStr, b64encode]
  exact b64_roundtrip l

theorem dispatchDraw_scatter (fig0 : Figure) (df : DataFrame) (x col : String) :
    dispatchDraw fig0 df x col "scatter"
      = Except.bind (df.col x) (fun xs => Except.bind (df.col col)
          (fun ys => Except.ok
            { fig0 with draw := some (DrawCmd.scatter xs ys col) })) := rfl

theorem dispatchDraw_hist (fig0 : Figure) (df : DataFrame) (x col : String) :
    dispatchDraw fig0 df x col "hist"
      = Except.bind (df.col col) (fun ys => Except.bind (toNums ys)
          (fun data => Except.ok
            { fig0 with draw := some (DrawCmd.hist data 10 col (4/5)) })) := rfl

theorem dispatchDraw_pie (fig0 : Figure) (df : DataFrame) (x col : String) :
    dispatchDraw fig0 df x col "pie"
      = Except.bind (df.col col) (fun ys => Except.bind (toNums ys)
          (fun sizes => Except.bind (df.col x) (fun xs => Except.ok
            { fig0 with draw := some (DrawCmd.pie sizes xs "%1.1f%%") }))) := rfl

theorem dispatchDraw_default (fig0 : Figure) (df : DataFrame) (x col tag : String)
    (h : tag ∉ validTags) : dispatchDraw fig0 df x col tag = Except.ok fig0 := by
  simp only [validTags, List.mem_cons, List.not_mem_nil, or_false, not_or] at h
  obtain ⟨h1, h2, h3, h4, h5⟩ := h
  simp [dispatchDraw, h1, h2, h3, h4, h5]
  rfl

theorem toNums_error_of_nonnum (l : List Val) (v : Val) (hv : v ∈ l)
    (h : v.toNum? = none) :
    toNums l = Except.error "TypeError: non-numeric data" := by
  induction l with
  | nil => cases hv
  | cons u us ih =>
      cases hu : u.toNum? with
      | none => simp [toNums, hu]
      | some q =>
          rcases List.mem_cons.mp hv with h1 | h1
          · rw [← h1] at hu
            rw [h] at hu
            cases hu
          · simp [toNums, hu, ih h1]

theorem col_head_ok (df : DataFrame) (c0 : String) (cs : List String)
    (h : df.columns = c0 :: cs) :
    df.col c0 = Except.ok (df.rows.map (fun r => r.getD 0 (Val.str ""))) := by
  rw [DataFrame.col, h]
  simp

theorem col_ok_columns_ne_nil (df : DataFrame) (c : String) (ys : List Val)
    (h : df.col c = Except.ok ys) : df.columns ≠ [] := by
  intro hc
  simp [DataFrame.col, hc] at h

theorem buildFigure_nil (df : DataFrame) (col tag : String)
    (h : df.columns = []) :
    buildFigure df col tag = Except.error "IndexError: columns" := by
  simp only [buildFigure, h]
  rfl

theorem buildFigure_cons (df : DataFrame) (col tag c0 : String) (cs : List String)
    (h : df.columns = c0 :: cs) :
    buildFigure df col tag =
      Except.bind (dispatchDraw newFigure df c0 col tag)
        (fun fig1 => Except.ok (commonSteps fig1 c0 col)) := by
  simp only [buildFigure, h]
  rfl

theorem buildFigure_ok_inv (df : DataFrame) (col tag : String) (fig : Figure)
    (h : buildFigure df col tag = Except.ok fig) :
    ∃ c0 cs fig1, df.columns = c0 :: cs
      ∧ dispatchDraw newFigure df c0 col tag = Except.ok fig1
      ∧ fig = commonSteps fig1 c0 col := by
  cases hc : df.columns with
  | nil => rw [buildFigure_nil df col tag hc] at h; cases h
  | cons c0 cs =>
      rw [buildFigure_cons df col tag c0 cs hc] at h
      cases hd : dispatchDraw newFigure df c0 col tag with
      | error e => rw [hd] at h; cases h
      | ok fig1 =>
          rw [hd] at h
          refine ⟨c0, cs, fig1, rfl, hd, ?_⟩
          cases h
          rfl

theorem FS.read_write (fs : FS) (p : String) (b : List Byte) :
    FS.read (FS.write fs p b) p = some b := by
  induction fs with
  | nil => simp [FS.read, FS.write]
  | cons e rest ih =>
      by_cases h : e.1 = p
      · simp [FS.write, FS.read, h]
      · simp [FS.write, FS.read, h, ih]

/-- Writing the same path twice keeps a single file: no accumulation. -/
theorem FS.write_write (fs : FS) (p : String) (b b' : List Byte) :
    FS.write (FS.write fs p b) p b' = FS.write fs p b' := by
  induction fs with
  | nil => simp [FS.write]
  | cons e rest ih =>
      by_cases h : e.1 = p
      · simp [FS.write, h]
      · simp [FS.write, h, ih]

/-- C9: the Catalog Lister raises an uncaught `KeyError` on a listing
response with no `Contents` entry (empty bucket) instead of returning
an empty sequence, and returns normally exactly when the response
carries the `Contents` entry. -/
theorem C9_lister_keyerror_on_empty_bucket :
    list_files_in_s3_bucket ⟨none⟩ = Except.error "KeyError: Contents"
    ∧ ∀ r : S3Response,
        (∃ l, list_files_in_s3_bucket r = Except.ok l) ↔ r.contents.isSome := by
  constructor
  · rfl
  · intro r
    cases hr : r.contents with
    | none => simp [list_files_in_s3_bucket, hr]
    | some objs => simp [list_files_in_s3_bucket, hr]

/-- C1: the claim requires every entered integer outside `1..n` — in
particular `0` — to be rejected and re-prompted. The code evaluates
`files[i-1]` with Python indexing, so entering `0` addresses index `-1`
and silently selects the *last* file of the listing `["a.csv",
"b.csv"]` instead of being rejected; in-range entries and entries above
`n` behave as claimed. -/
theorem C1_selection_zero_selects_last :
    selection_loop ["a.csv", "b.csv"] [some 0] = some "b.csv"
    ∧ selection_loop ["a.csv", "b.csv"] [some 1] = some "a.csv"
    ∧ selection_loop ["a.csv", "b.csv"] [some 2] = some "b.csv"
    ∧ selection_loop ["a.csv", "b.csv"] [some 3] = none
    ∧ selection_loop ["a.csv", "b.csv"] [some 3, some 2] = some "b.csv" := by
  refine ⟨by decide, by decide, by decide, by decide, by decide⟩

/-- C2 counterexample: on a failing download the error line is written
by `print`, i.e. to standard output — no line ever reaches the
process's error stream, contradicting the claim that the message goes
to the error stream. -/
theorem C2_counterexample_message_on_stdout :
    ((download_file_from_s3 (Except.error "NoSuchKey") "datasetentries" "a.csv"
        "/tmp").outputs.all (fun p => p.1 = Chan.stdout)) = true
    ∧ Chan.stdout ≠ Chan.stderr
    ∧ (download_file_from_s3 (Except.error "NoSuchKey") "datasetentries" "a.csv"
        "/tmp").result = Except.error 1 := by
  refine ⟨by decide, by decide, rfl⟩

/-- C2 (amended): on every download failure the Fetcher prints the
error message to standard output — not the error stream — and then
terminates the whole process with exit code 1; it never returns a local
path and never continues silently. -/
theorem C2_download_failure_prints_and_exits_1 (e bucket key dir : String) :
    (download_file_from_s3 (Except.error e) bucket key dir).result = Except.error 1
    ∧ (download_file_from_s3 (Except.error e) bucket key dir).outputs
        = [(Chan.stdout, "Error downloading file from S3: " ++ e)] :=
  ⟨rfl, rfl⟩

/-- C8: whenever the plot-type loop returns a tag, that tag is one of
the five recognized values and is the lowercased form of one of the
entered tokens; the driver then invokes the renderer only with such a
tag. -/
theorem C8_plot_type_loop_valid (inputs : List String) (t : String)
    (h : plot_type_loop inputs = some t) :
    t ∈ validTags ∧ ∃ s ∈ inputs, t = strLower s := by
  induction inputs with
  | nil => cases h
  | cons s rest ih =>
      rw [plot_type_loop] at h
      by_cases hmem : strLower s ∈ validTags
      · rw [if_pos hmem] at h
        cases h
        exact ⟨hmem, s, List.mem_cons_self s rest, rfl⟩
      · rw [if_neg hmem] at h
        obtain ⟨h1, s2, hs2, h3⟩ := ih h
        exact ⟨h1, s2, List.mem_cons_of_mem s hs2, h3⟩

/-- C8 witness: a run whose first token is unrecognized and whose
second token is `PIE` returns the lowercased tag `pie`, which is in the
recognized set. -/
theorem C8_witness :
    "pie" ∈ validTags ∧ ∃ s ∈ ["chart", "PIE"], "pie" = strLower s :=
  C8_plot_type_loop_valid ["chart", "PIE"] "pie" (by decide)

/-- C3 counterexample: a run in which `plt.savefig` raises — the
exception propagates out of `visualize_data` and `plt.close` is *not*
invoked, contradicting the claim that the figure is released on every
path. -/
theorem C3_counterexample_close_skipped :
    (visualize_data engFail [] dfSales "/out" "sales" "line").result
      = Except.error "OSError: disk full"
    ∧ (visualize_data engFail [] dfSales "/out" "sales" "line").closed = false :=
  ⟨rfl, rfl⟩

/-- C3 (amended): `plt.close` is invoked exactly on the runs in which
the figure was completed and `plt.savefig` succeeded; when `plt.savefig`
(or the draw itself) raises, the exception propagates and the figure is
not closed. -/
theorem C3_close_iff_savefig_succeeds (engine : Figure → Except String (List Byte))
    (fs : FS) (df : DataFrame) (dir col tag : String) :
    (visualize_data engine fs df dir col tag).closed = true
    ↔ ∃ fig bytes, buildFigure df col tag = Except.ok fig
        ∧ engine fig = Except.ok bytes := by
  cases hb : buildFigure df col tag with
  | error e =>
      simp [visualize_data, hb]
  | ok fig =>
      cases he : engine fig with
      | error e2 =>
          simp [visualize_data, hb, he]
      | ok bytes =>
          simp [visualize_data, hb, he, FS.read_write]

/-- C4: for every table, every selected column and every one of the
five plot-type tags, a completed figure carries the table's first
column name as its x-axis label and the selected column name as its
y-axis label; the assignment is the same for every tag. -/
theorem C4_axis_labels (df : DataFrame) (col tag : String) (fig : Figure)
    (htag : tag ∈ validTags) (h : buildFigure df col tag = Except.ok fig) :
    ∃ c0 cs, df.columns = c0 :: cs ∧ fig.xlabel = some c0 ∧ fig.ylabel = some col := by
  obtain ⟨c0, cs, fig1, hc, hd, hfig⟩ := buildFigure_ok_inv df col tag fig h
  exact ⟨c0, cs, hc, by simp [hfig, commonSteps], by simp [hfig, commonSteps]⟩

/-- C4 witness: the `line` run on the concrete table; the x-axis label
is `date` (the first column) and the y-axis label is `sales`. -/
theorem C4_witness :
    "line" ∈ validTags
    ∧ buildFigure dfSales "sales" "line" = Except.ok figLine
    ∧ ∃ c0 cs, dfSales.columns = c0 :: cs
        ∧ figLine.xlabel = some c0 ∧ figLine.ylabel = some "sales" :=
  ⟨by decide, by rfl,
    C4_axis_labels dfSales "sales" "line" figLine (by decide) (by rfl)⟩

/-- C5: every successful render writes the figure bytes to the fixed
path `plot.png` inside the output directory — a repeated write to that
path overwrites rather than accumulates — and the returned string is
exactly the base64 encoding of the saved file's bytes: decoding the
returned string yields the file's bytes, and the string is non-empty
whenever the file is. -/
theorem C5_render_saves_and_encodes (engine : Figure → Except String (List Byte))
    (fs : FS) (df : DataFrame) (dir col tag s : String)
    (h : (visualize_data engine fs df dir col tag).result = Except.ok s) :
    ∃ bytes,
      (visualize_data engine fs df dir col tag).fs
          = FS.write fs (pathJoin dir "plot.png") bytes
      ∧ FS.read (visualize_data engine fs df dir col tag).fs (pathJoin dir "plot.png")
          = some bytes
      ∧ s = b64encode bytes
      ∧ b64decodeStr s = some bytes
      ∧ (bytes ≠ [] → s ≠ "")
      ∧ ∀ bytes2, FS.write (visualize_data engine fs df dir col tag).fs
            (pathJoin dir "plot.png") bytes2
          = FS.write fs (pathJoin dir "plot.png") bytes2 := by
  cases hb : buildFigure df col tag with
  | error e => simp [visualize_data, hb] at h
  | ok fig =>
      cases he : engine fig with
      | error e2 => simp [visualize_data, hb, he] at h
      | ok bytes =>
          have hread := FS.read_write fs (pathJoin dir "plot.png") bytes
          simp only [visualize_data, hb, he, hread] at h ⊢
          simp only [Except.ok.injEq] at h
          refine ⟨bytes, rfl, rfl, h.symm, ?_, ?_, ?_⟩
          · rw [← h]
            exact b64decodeStr_b64encode bytes
          · intro hne
            rw [← h]
            exact b64encode_ne_empty bytes hne
          · intro bytes2
            exact FS.write_write fs (pathJoin dir "plot.png") bytes bytes2

/-- C5 witness: a concrete `line` run with a one-byte rasterizer; the
returned string is `iQ==`, the base64 of the saved byte. -/
theorem C5_witness :
    ∃ bytes,
      (visualize_data engOk [] dfSales "/out" "sales" "line").fs
          = FS.write [] (pathJoin "/out" "plot.png") bytes
      ∧ FS.read (visualize_data engOk [] dfSales "/out" "sales" "line").fs
          (pathJoin "/out" "plot.png") = some bytes
      ∧ "iQ==" = b64encode bytes
      ∧ b64decodeStr "iQ==" = some bytes
      ∧ (bytes ≠ [] → "iQ==" ≠ "")
      ∧ ∀ bytes2, FS.write (visualize_data engOk [] dfSales "/out" "sales" "line").fs
            (pathJoin "/out" "plot.png") bytes2
          = FS.write [] (pathJoin "/out" "plot.png") bytes2 :=
  C5_render_saves_and_encodes engOk [] dfSales "/out" "sales" "line" "iQ==" (by rfl)

/-- C6: for the `hist` tag the recorded draw command is a histogram of
the target column's numeric values only — the first column contributes
no data — with exactly 10 fixed buckets and relative bar width 4/5,
which is < 1: adjacent bars are separated by a visible gap. -/
theorem C6_hist_target_only_ten_bins (df : DataFrame) (col : String) (fig : Figure)
    (h : buildFigure df col "hist" = Except.ok fig) :
    ∃ ys data, df.col col = Except.ok ys ∧ toNums ys = Except.ok data
      ∧ fig.draw = some (DrawCmd.hist data 10 col (4/5))
      ∧ (4 : ℚ)/5 < 1 := by
  obtain ⟨c0, cs, fig1, hc, hd, hfig⟩ := buildFigure_ok_inv df col "hist" fig h
  rw [dispatchDraw_hist] at hd
  cases hys : df.col col with
  | error e => rw [hys] at hd; cases hd
  | ok ys =>
      rw [hys] at hd
      simp only [Except.bind] at hd
      cases hdata : toNums ys with
      | error e => rw [hdata] at hd; cases hd
      | ok data =>
          rw [hdata] at hd
          simp only [Except.bind] at hd
          cases hd
          refine ⟨ys, data, rfl, hdata, ?_, by norm_num⟩
          simp [hfig, commonSteps]

/-- C6 witness: the `hist` run on the concrete table records a
histogram of the `sales` values `[3, 5]` with 10 buckets and bar width
4/5. -/
theorem C6_witness :
    ∃ ys data, dfSales.col "sales" = Except.ok ys ∧ toNums ys = Except.ok data
      ∧ figHist.draw = some (DrawCmd.hist data 10 "sales" (4/5))
      ∧ (4 : ℚ)/5 < 1 :=
  C6_hist_target_only_ten_bins dfSales "sales" figHist (by rfl)

/-- C7: for the numeric plot types `hist` and `pie` a non-numeric
target column makes the render fail deterministically with the
engine's TypeError, while the renderer performs no type pre-validation
before dispatch: the very same column is accepted unchecked by the
`scatter` branch. -/
theorem C7_nonnumeric_hist_pie_fails (df : DataFrame) (col tag : String)
    (ys : List Val) (v : Val)
    (htag : tag = "hist" ∨ tag = "pie")
    (hys : df.col col = Except.ok ys)
    (hv : v ∈ ys) (hnum : v.toNum? = none) :
    buildFigure df col tag = Except.error "TypeError: non-numeric data"
    ∧ ∃ fig, buildFigure df col "scatter" = Except.ok fig := by
  have hnil := col_ok_columns_ne_nil df col ys hys
  obtain ⟨c0, cs, hc⟩ := List.exists_cons_of_ne_nil hnil
  have hx := col_head_ok df c0 cs hc
  have herr := toNums_error_of_nonnum ys v hv hnum
  constructor
  · rcases htag with h | h <;> subst h
    · rw [buildFigure_cons df col "hist" c0 cs hc, dispatchDraw_hist]
      simp [hys, herr, Except.bind]
    · rw [buildFigure_cons df col "pie" c0 cs hc, dispatchDraw_pie]
      simp [hys, herr, Except.bind]
  · rw [buildFigure_cons df col "scatter" c0 cs hc, dispatchDraw_scatter]
    simp only [hx, hys, Except.bind]
    exact ⟨_, rfl⟩

/-- C7 witness: the table whose `sales` column holds the non-numeric
cell `oops` makes the `hist` render raise the engine's TypeError while
the `scatter` render accepts the same column. -/
theorem C7_witness :
    buildFigure dfBadSales "sales" "hist" = Except.error "TypeError: non-numeric data"
    ∧ ∃ fig, buildFigure dfBadSales "sales" "scatter" = Except.ok fig :=
  C7_nonnumeric_hist_pie_fails dfBadSales "sales" "hist" [Val.str "oops"]
    (Val.str "oops") (Or.inl rfl) (by rfl) (by decide) (by rfl)

/-- C10: an unrecognized tag does not raise at the dispatch — no branch
matches and there is no default branch, so nothing is drawn — yet the
axis labels and title are still set, the blank chart is saved to
`plot.png` and a non-empty base64 string is returned: the renderer is
total over arbitrary tag strings. -/
theorem C10_unrecognized_tag_total (engine : Figure → Except String (List Byte))
    (fs : FS) (df : DataFrame) (dir col tag : String) (bytes : List Byte)
    (c0 : String) (cs : List String)
    (htag : tag ∉ validTags) (hc : df.columns = c0 :: cs)
    (heng : ∀ fig, engine fig = Except.ok bytes) (hbytes : bytes ≠ []) :
    ∃ fig, buildFigure df col tag = Except.ok fig
      ∧ fig.draw = none
      ∧ fig.xlabel = some c0 ∧ fig.ylabel = some col
      ∧ fig.title = some "Data Visualization"
      ∧ (visualize_data engine fs df dir col tag).result = Except.ok (b64encode bytes)
      ∧ b64encode bytes ≠ ""
      ∧ (visualize_data engine fs df dir col tag).fs
          = FS.write fs (pathJoin dir "plot.png") bytes := by
  have hd := dispatchDraw_default newFigure df c0 col tag htag
  have hb : buildFigure df col tag = Except.ok (commonSteps newFigure c0 col) := by
    rw [buildFigure_cons df col tag c0 cs hc, hd]
    rfl
  have he := heng (commonSteps newFigure c0 col)
  have hread := FS.read_write fs (pathJoin dir "plot.png") bytes
  refine ⟨commonSteps newFigure c0 col, hb, rfl, rfl, rfl, rfl, ?_,
    b64encode_ne_empty bytes hbytes, ?_⟩
  · simp only [visualize_data, hb, he, hread]
  · simp only [visualize_data, hb, he, hread]

/-- C10 witness: the unrecognized tag `foo` on the concrete table:
nothing is drawn, the labels and title are set, and the run returns the
non-empty base64 of the saved blank chart. -/
theorem C10_witness :
    ∃ fig, buildFigure dfSales "sales" "foo" = Except.ok fig
      ∧ fig.draw = none
      ∧ fig.xlabel = some "date" ∧ fig.ylabel = some "sales"
      ∧ fig.title = some "Data Visualization"
      ∧ (visualize_data engOk [] dfSales "/out" "sales" "foo").result
          = Except.ok (b64encode [mkByte 137])
      ∧ b64encode [mkByte 137] ≠ ""
      ∧ (visualize_data engOk [] dfSales "/out" "sales" "foo").fs
          = FS.write [] (pathJoin "/out" "plot.png") [mkByte 137] :=
  C10_unrecognized_tag_total engOk [] dfSales "/out" "sales" "foo" [mkByte 137]
    "date" ["sales"] (by decide) rfl (fun _ => rfl) (by decide)

end DV
